import Mathlib

/-!
Verification development for the AutoExplorer robot mapping/navigation core.

The definitions below are a shallow embedding of the Python sources:

* `src/modules/mapping_module.py`   — `OccupancyGrid` (coordinate transforms,
  Bresenham ray cast, vectorized log-odds updates, frontier query, persistence);
* `src/modules/navigation_module.py` — `NavigationController` (safe hardware
  calls, motion commands, emergency stop);
* `src/main.py`                      — `RobotSystem` (emergency-stop handling,
  main-loop gating of autonomous motion).

Machine floats are embedded as exact rationals where the code only does
arithmetic and comparisons (geometry, thresholds, persistence) and as real
numbers where the code calls `log`/`exp` (the per-cell Bayesian update).
-/

namespace AutoExplorer

/-! ## Rounding and `np.interp` semantics

`_bresenham_line` evaluates `np.round(np.interp(v, [a, b], [fa, fb]))`.
`np.round` rounds half to even.  `np.interp` assumes its `xp` argument is
increasing; for a two-point `xp = [a, b]`:

* if `a < b` (increasing): queries `v ≥ b` yield `fb`, queries `v < a` yield
  `fa`, and queries in `[a, b)` are linearly interpolated
  `fa + (v - a) * (fb - fa) / (b - a)`;
* if `a > b` (decreasing, documented by numpy as unspecified): the compiled
  binary search first tests `v > xp[last] = b` (returning `fb`) and then
  `v < xp[0] = a` (returning `fa`), so every query above `b` yields `fb` and
  every other query yields `fa`.
-/

/-- `np.round`: round half to even (banker's rounding), on exact rationals. -/
def roundHalfEven (q : ℚ) : ℤ :=
  let f := q.floor
  let r := q - (f : ℚ)
  if r < 1 / 2 then f
  else if 1 / 2 < r then f + 1
  else if f % 2 = 0 then f else f + 1

/-- `np.round(np.interp(v, [a, b], [fa, fb]))` for integer inputs, including
numpy's actual behaviour on a decreasing two-point `xp` (see above). -/
def npInterpRound (a b fa fb v : ℤ) : ℤ :=
  if a < b then
    if b ≤ v then fb
    else if v < a then fa
    else roundHalfEven ((fa : ℚ) + ((v : ℚ) - (a : ℚ)) * ((fb : ℚ) - (fa : ℚ)) / ((b : ℚ) - (a : ℚ)))
  else
    if b < v then fb else fa

/-- Step direction used by `_bresenham_line`: `1 if x1 > x0 else -1`. -/
def stepDir (p q : ℤ) : ℤ := if p < q then 1 else -1

/-- The unfiltered point list of `OccupancyGrid._bresenham_line`
(`mapping_module.py` lines 125–155, before the bounds mask):
`dx = abs(x1-x0)`, `dy = abs(y1-y0)`; if both are zero a single cell is
returned; otherwise the branch `dx > dy` drives along x with
`np.arange(x0, x1+sx, sx)` and interpolates y, and the other branch drives
along y and interpolates x. -/
def bresenhamRaw (x0 y0 x1 y1 : ℤ) : List (ℤ × ℤ) :=
  let dx := (x1 - x0).natAbs
  let dy := (y1 - y0).natAbs
  if dx = 0 ∧ dy = 0 then [(x0, y0)]
  else if dy < dx then
    (List.range (dx + 1)).map fun i : ℕ =>
      (x0 + stepDir x0 x1 * (i : ℤ), npInterpRound x0 x1 y0 y1 (x0 + stepDir x0 x1 * (i : ℤ)))
  else
    (List.range (dy + 1)).map fun i : ℕ =>
      (npInterpRound y0 y1 x0 x1 (y0 + stepDir y0 y1 * (i : ℤ)), y0 + stepDir y0 y1 * (i : ℤ))

/-- The bounds predicate of the mask in `_bresenham_line` lines 157–163:
`0 <= x < width_cells` and `0 <= y < height_cells`. -/
def cellInBounds (w h : ℤ) (c : ℤ × ℤ) : Prop :=
  0 ≤ c.1 ∧ c.1 < w ∧ 0 ≤ c.2 ∧ c.2 < h

instance (w h : ℤ) (c : ℤ × ℤ) : Decidable (cellInBounds w h c) := by
  unfold cellInBounds; infer_instance

/-- `_bresenham_line` with its final bounds mask applied (`points[mask]`). -/
def bresenhamLine (w h x0 y0 x1 y1 : ℤ) : List (ℤ × ℤ) :=
  (bresenhamRaw x0 y0 x1 y1).filter fun c => decide (cellInBounds w h c)

/-! ## Coordinate transforms (`_world_to_grid`, `_grid_to_world`) -/

/-- `OccupancyGrid._world_to_grid`: `grid_x = floor(x_cm / resolution_cm)`,
`grid_y = floor(y_cm / resolution_cm)`. -/
def world_to_grid (resolution_cm x_cm y_cm : ℚ) : ℤ × ℤ :=
  (⌊x_cm / resolution_cm⌋, ⌊y_cm / resolution_cm⌋)

/-- `OccupancyGrid._grid_to_world`: cell-centre convention,
`world = (grid + 0.5) * resolution_cm`. -/
def grid_to_world (resolution_cm : ℚ) (grid_x grid_y : ℤ) : ℚ × ℚ :=
  (((grid_x : ℚ) + 1 / 2) * resolution_cm, ((grid_y : ℚ) + 1 / 2) * resolution_cm)

/-! ## The occupancy grid and its Bayesian update

`OccupancyGrid.__init__` stores `resolution_cm`, the cell counts obtained by
rounding up `size / resolution`, and a `height × width` probability array
filled with 0.5.  The array is embedded as a total function on integer cell
coordinates; all reads and writes performed by the embedded operations are
proven to stay within `cellInBounds`. -/

structure OccupancyGrid where
  resolution_cm : ℚ
  width_cells : ℤ
  height_cells : ℤ
  grid : ℤ × ℤ → ℝ

/-- `OccupancyGrid.__init__`: `width_cells = ceil(width_cm / resolution_cm)`,
`height_cells = ceil(height_cm / resolution_cm)`, every cell 0.5 (unknown). -/
noncomputable def OccupancyGrid.create (width_cm height_cm resolution_cm : ℚ) : OccupancyGrid :=
  { resolution_cm := resolution_cm
    width_cells := (width_cm / resolution_cm).ceil
    height_cells := (height_cm / resolution_cm).ceil
    grid := fun _ => 1 / 2 }

/-- The increment chosen in `_update_cells_vectorized`:
`log_odds_update = 0.4 if is_occupied else -0.4`. -/
noncomputable def log_odds_update (is_occupied : Bool) : ℝ :=
  if is_occupied then 0.4 else -0.4

/-- The per-cell transform of `_update_cells_vectorized` (lines 177–184):
`log_odds = log(p / (1 - p))`, add the increment, and map back through the
logistic function `1 / (1 + exp(-log_odds))`.  No clamping is performed. -/
noncomputable def cell_update (is_occupied : Bool) (p : ℝ) : ℝ :=
  1 / (1 + Real.exp (-(Real.log (p / (1 - p)) + log_odds_update is_occupied)))

/-- `_update_cells_vectorized` on a batch of cells: numpy reads `current`
once and writes the transformed batch back, so each listed cell receives one
application of `cell_update` (computed from the pre-update value) and all
other cells are untouched. -/
noncomputable def OccupancyGrid.update_cells (g : OccupancyGrid)
    (cells : List (ℤ × ℤ)) (is_occupied : Bool) : OccupancyGrid :=
  { g with grid := fun c => if c ∈ cells then cell_update is_occupied (g.grid c) else g.grid c }

/-- The in-bounds cell sequence of the ray cast performed by
`update_occupancy` (line 107): `cells = self._bresenham_line(start, end)`. -/
def OccupancyGrid.ray_cells (g : OccupancyGrid) (s e : ℤ × ℤ) : List (ℤ × ℤ) :=
  bresenhamLine g.width_cells g.height_cells s.1 s.2 e.1 e.2

/-- `update_occupancy` (lines 96–117), from the already-computed start and
end grid cells on: free-space update on `cells[:-1]`, then, when the ray
produced at least one cell, occupied update on `cells[-1:]`.  (The preceding
lines convert the pose and the `distance`/`angle` reading to the start and
end cells through float trigonometry and `_world_to_grid`; every such call
yields some pair of integer cells, over which the theorems below
quantify.) -/
noncomputable def OccupancyGrid.update_occupancy (g : OccupancyGrid) (s e : ℤ × ℤ) :
    OccupancyGrid :=
  match (g.ray_cells s e).getLast? with
  | some c => (g.update_cells (g.ray_cells s e).dropLast false).update_cells [c] true
  | none => g.update_cells (g.ray_cells s e).dropLast false

/-- The `unknown` mask of `get_frontiers` (line 193): `|p - 0.5| < 0.1`. -/
noncomputable def unknown_mask (g : OccupancyGrid) (c : ℤ × ℤ) : Prop :=
  |g.grid c - 0.5| < 0.1

/-- The `free` mask of `get_frontiers` (line 194): `p < 0.3`. -/
noncomputable def free_mask (g : OccupancyGrid) (c : ℤ × ℤ) : Prop :=
  g.grid c < 0.3

/-- `get_frontiers` (lines 186–205).  The function builds the `unknown` and
`free` masks (embedded above as `unknown_mask` and `free_mask`) and then
evaluates `cv2.dilate(...)` on line 199 — but `mapping_module.py` never
imports `cv2`, so every call raises `NameError` at that line, before any
frontier is produced.  Fallible code is embedded as `Except`; this function
fails on every input. -/
def OccupancyGrid.get_frontiers (_g : OccupancyGrid) : Except String (List (ℤ × ℤ)) :=
  Except.error "NameError: name cv2 is not defined"

/-! ## Persistence (`save_grid_to_file`, `load_grid_from_file`)

`save_grid_to_file` writes an NPZ archive with entries `grid` (the 2-D
probability array) and `resolution` (a 0-d array).  `load_grid_from_file`
reads the archive back with a bare `try`/`except` and no validation.  For
this part the in-memory state is modelled on the ndarray representation the
loader manipulates: the stored values are exact rationals, an ndarray is
either 2-D or 0-d, and an NPZ archive is a keyed list of ndarrays (`none`
models an unreadable file, where `np.load` itself raises). -/

/-- A numpy array as stored in / loaded from an NPZ entry: 2-D (list of
rows) or 0-d (a scalar). -/
inductive Ndarray where
  | arr2 (rows : List (List ℚ))
  | arr0 (val : ℚ)
deriving DecidableEq, Repr

/-- The in-memory fields of `OccupancyGrid` that `load_grid_from_file`
assigns: `self.grid`, `self.resolution_cm`, `self.height_cells`,
`self.width_cells`. -/
structure MapState where
  grid : Ndarray
  resolution_cm : ℚ
  height_cells : ℤ
  width_cells : ℤ
deriving DecidableEq, Repr

/-- Keyed access `data[k]` on a loaded NPZ archive; `none` is the `KeyError`
case. -/
def npzGet (k : String) : List (String × Ndarray) → Option Ndarray
  | [] => none
  | (k1, v) :: rest => if k = k1 then some v else npzGet k rest

/-- `float(arr)`: succeeds exactly on arrays holding a single element. -/
def floatOfNdarray : Ndarray → Option ℚ
  | .arr0 v => some v
  | .arr2 [[v]] => some v
  | .arr2 _ => none

/-- `arr.shape` destructured as `height, width = ...`: succeeds only on a
2-D array (a 0-d shape `()` raises at the unpacking). -/
def shapeOfNdarray : Ndarray → Option (ℤ × ℤ)
  | .arr2 rows => some ((rows.length : ℤ), ((rows.headD []).length : ℤ))
  | .arr0 _ => none

/-- `load_grid_from_file` (lines 220–231).  The statement order of the
source is kept: `data = np.load(filepath)`, then `self.grid = data['grid']`,
then `self.resolution_cm = float(data['resolution'])`, then
`self.height_cells, self.width_cells = self.grid.shape`; any exception is
caught and turned into a `False` return, leaving whatever assignments had
already happened in place. -/
def load_grid_from_file (st : MapState) (file : Option (List (String × Ndarray))) :
    MapState × Bool :=
  match file with
  | none => (st, false)
  | some data =>
    match npzGet "grid" data with
    | none => (st, false)
    | some arr =>
      let st1 := { st with grid := arr }
      match npzGet "resolution" data with
      | none => (st1, false)
      | some resArr =>
        match floatOfNdarray resArr with
        | none => (st1, false)
        | some r =>
          let st2 := { st1 with resolution_cm := r }
          match shapeOfNdarray st2.grid with
          | none => (st2, false)
          | some (h, w) => ({ st2 with height_cells := h, width_cells := w }, true)

/-! ## Navigation (`navigation_module.py`)

The PiCar-X hardware is an external boundary.  A hardware behaviour maps a
method name and its arguments to `true` (the call returned) or `false` (the
call raised an exception — the exception content never matters because
`_safe_hardware_call` swallows it).  `picar` is `none` when `Picarx()`
raised during `__init__`.  Each command returns the `bool` result of the
source together with the list of hardware calls attempted, so that the
theorems can speak about actuation. -/

/-- Outcome of invoking one method of the PiCar-X hardware:
`true` = returned, `false` = raised. -/
def HwBehavior : Type := String → List ℚ → Bool

/-- `RobotPose` (`mapping_module.py` lines 20–25), with floats as exact
rationals. -/
structure RobotPose where
  x : ℚ
  y : ℚ
  theta : ℚ
deriving DecidableEq, Repr

/-- The state of `NavigationController` set up in `__init__` (lines 41–74):
the optional hardware handle and the navigation parameters. -/
structure Nav where
  picar : Option HwBehavior
  current_pose : RobotPose
  min_obstacle_distance : ℚ
  robot_radius : ℚ
  safety_margin : ℚ
  max_speed : ℚ

/-- `NavigationController.__init__`: pose `(0,0,0)`, `picar` as produced by
the hardware-initialization attempt, `min_obstacle_distance = 20.0`,
`robot_radius = 15.0`, `safety_margin = 5.0`, `max_speed = 50`. -/
def Nav.init (hardware : Option HwBehavior) : Nav :=
  { picar := hardware
    current_pose := { x := 0, y := 0, theta := 0 }
    min_obstacle_distance := 20
    robot_radius := 15
    safety_margin := 5
    max_speed := 50 }

/-- `_safe_hardware_call` (lines 103–125): with no hardware, return `False`
without touching the hardware; otherwise invoke the method, returning
`True` on success and `False` when it raises (the exception is caught).
The second component records the hardware calls attempted. -/
def Nav.safe_hardware_call (nav : Nav) (func_name : String) (args : List ℚ) :
    Bool × List (String × List ℚ) :=
  match nav.picar with
  | none => (false, [])
  | some hw => (hw func_name args, [(func_name, args)])

/-- `move_forward` (lines 127–138): `forward(speed)`, defaulting to
`max_speed`. -/
def Nav.move_forward (nav : Nav) (speed : Option ℚ) : Bool × List (String × List ℚ) :=
  nav.safe_hardware_call "forward" [speed.getD nav.max_speed]

/-- `move_backward` (lines 140–151). -/
def Nav.move_backward (nav : Nav) (speed : Option ℚ) : Bool × List (String × List ℚ) :=
  nav.safe_hardware_call "backward" [speed.getD nav.max_speed]

/-- `turn_left` (lines 153–163): `set_dir_servo_angle(angle)`, default 90. -/
def Nav.turn_left (nav : Nav) (angle : ℚ) : Bool × List (String × List ℚ) :=
  nav.safe_hardware_call "set_dir_servo_angle" [angle]

/-- `turn_right` (lines 165–175): `set_dir_servo_angle(angle)`, default -90. -/
def Nav.turn_right (nav : Nav) (angle : ℚ) : Bool × List (String × List ℚ) :=
  nav.safe_hardware_call "set_dir_servo_angle" [angle]

/-- `stop` (lines 177–186): `stop()` then `set_dir_servo_angle(0)`, both
always attempted, success only if both succeeded. -/
def Nav.stop (nav : Nav) : Bool × List (String × List ℚ) :=
  let s := nav.safe_hardware_call "stop" []
  let a := nav.safe_hardware_call "set_dir_servo_angle" [0]
  (s.1 && a.1, s.2 ++ a.2)

/-- `emergency_stop` (lines 188–191): calls `self.stop()` (discarding its
result) and logs; it mutates no state of its own.  The value is the list of
hardware calls issued. -/
def Nav.emergency_stop (nav : Nav) : List (String × List ℚ) :=
  (Nav.stop nav).2

/-! ## The system level (`main.py`)

`RobotSystem` owns the flags consulted by the main loop.  The claims about
emergency stop concern `_handle_emergency_stop` (lines 114–144) together
with the loop body `_main_loop` (lines 201–244). -/

/-- The fields of `SystemStatus` consulted by `_handle_emergency_stop`. -/
structure SysStatus where
  battery_voltage : ℚ
  cpu_temperature : ℚ
deriving DecidableEq, Repr

/-- `SystemMonitor.BATTERY_CRITICAL_VOLTAGE = 6.4`. -/
def BATTERY_CRITICAL_VOLTAGE : ℚ := 32 / 5

/-- `SystemMonitor.CPU_TEMP_CRITICAL = 80.0`. -/
def CPU_TEMP_CRITICAL : ℚ := 80

/-- The mutable flags of `RobotSystem` (`main.py` lines 72–74). -/
structure RobotSystem where
  is_running : Bool
  autonomous_mode : Bool
  emergency_stop_triggered : Bool
deriving DecidableEq, Repr

/-- `_handle_emergency_stop` (lines 114–144): set
`emergency_stop_triggered = True` and `autonomous_mode = False`
unconditionally, call `nav.emergency_stop()`, and when the current status is
critical (battery at/below critical voltage or CPU at/above critical
temperature) run `shutdown()`, which clears `is_running` and issues a final
`nav.stop()`.  The second component is the list of hardware calls issued. -/
def handle_emergency_stop (sys : RobotSystem) (nav : Nav) (status : SysStatus) :
    RobotSystem × List (String × List ℚ) :=
  let sys1 := { sys with emergency_stop_triggered := true, autonomous_mode := false }
  let trace := nav.emergency_stop
  if status.battery_voltage ≤ BATTERY_CRITICAL_VOLTAGE ∨
      CPU_TEMP_CRITICAL ≤ status.cpu_temperature then
    ({ sys1 with is_running := false }, trace ++ (Nav.stop nav).2)
  else
    (sys1, trace)

/-- The operations of the core that touch the `RobotSystem` flags or could
issue motion, as they appear in `main.py`. -/
inductive CoreOp where
  | handleEmergencyStop (status : SysStatus)
  | toggleAutonomousMode
  | safetyPause
  | autonomousUpdate
  | updateSensors
deriving Repr

/-- One step of the core: the corresponding piece of `main.py`.

* `handleEmergencyStop` — `_handle_emergency_stop`;
* `toggleAutonomousMode` — `toggle_autonomous_mode` (line 337): flips the
  flag, issues nothing;
* `safetyPause` — the `_check_safe_to_continue` failure branch of the main
  loop (lines 228–233): sets `autonomous_mode = False`;
* `autonomousUpdate` — the gated call `if self.autonomous_mode and not
  self.emergency_stop_triggered: self._autonomous_update()` (line 236);
  `_autonomous_update` itself calls `self.nav.find_nearest_frontier()`,
  which is not defined on `NavigationController`, so the resulting
  `AttributeError` is caught by its `except` (line 334) before any motion
  command is issued — in either branch no hardware call happens;
* `updateSensors` — `_update_sensors` (lines 267–307): updates the grid
  from the range reading; its obstacle branch reads
  `self.nav._min_obstacle_distance`, an attribute that does not exist
  (the field is `min_obstacle_distance`), so the `AttributeError` is caught
  at line 306 and no motion command is issued. -/
def coreStep (sys : RobotSystem) (nav : Nav) : CoreOp → RobotSystem × List (String × List ℚ)
  | .handleEmergencyStop status => handle_emergency_stop sys nav status
  | .toggleAutonomousMode => ({ sys with autonomous_mode := !sys.autonomous_mode }, [])
  | .safetyPause => ({ sys with autonomous_mode := false }, [])
  | .autonomousUpdate =>
    if sys.autonomous_mode && !sys.emergency_stop_triggered then (sys, []) else (sys, [])
  | .updateSensors => (sys, [])

/-- Run a sequence of core operations, accumulating the hardware calls. -/
def runCore (sys : RobotSystem) (nav : Nav) : List CoreOp →
    RobotSystem × List (String × List ℚ)
  | [] => (sys, [])
  | op :: rest =>
    let r := coreStep sys nav op
    let rr := runCore r.1 nav rest
    (rr.1, r.2 ++ rr.2)

/-- Hardware calls that produce motion: `forward` and `backward` drive the
wheels; `stop` and `set_dir_servo_angle` halt or steer without producing
motion. -/
def isMotionCmd (c : String × List ℚ) : Bool :=
  c.1 == "forward" || c.1 == "backward"

/-! ## Obstacle avoidance (spec-modelled) -/

/-- Modelled from the spec: the configured avoidance rotation angle.  The
method `avoid_obstacle` is missing from the sources — see
`Nav.avoid_obstacle` below — and the spec only fixes that the maneuver
rotates "by a configured angle" away from the obstacle; this constant stands
for that configuration value (about π/2, the example magnitude of the
motion-primitive turns). -/
def avoidance_turn_angle : ℚ := 157 / 100

/-- Modelled from the spec: `avoid_obstacle(distance_cm, bearing_radians)`.
The method is called by `main.py` (line 289) and exercised by
`tests/test_navigation_module.py`, but its definition is not among the
provided sources of `NavigationController`.  Spec §4.2: the call first
checks `distanceCm > minObstacleDistanceCm + robotRadiusCm +
safetyMarginCm`; if the check passes it reports success without any action
(pose unchanged); otherwise it performs the avoidance maneuver — rotating
the pose away from the obstacle bearing by the configured angle — and
reports success only if the maneuver completed (`maneuver_ok` stands for
the outcome of the actuation the maneuver issues). -/
def Nav.avoid_obstacle (nav : Nav) (maneuver_ok : Bool) (distance bearing : ℚ) :
    Nav × Bool :=
  if nav.min_obstacle_distance + nav.robot_radius + nav.safety_margin < distance then
    (nav, true)
  else
    let turn := if bearing < 0 then avoidance_turn_angle else -avoidance_turn_angle
    ({ nav with current_pose := { nav.current_pose with
        theta := nav.current_pose.theta + turn } }, maneuver_ok)

/-! ## Concrete instances used by the witnesses below -/

/-- A hardware behaviour whose calls all return normally. -/
def hwAll : HwBehavior := fun _ _ => true

/-- A hardware behaviour whose calls all raise. -/
def hwRaise : HwBehavior := fun _ _ => false

/-- A controller whose `Picarx()` initialization failed. -/
def navNoHw : Nav := Nav.init none

/-- A controller with healthy hardware. -/
def navOk : Nav := Nav.init (some hwAll)

/-- A controller whose hardware raises on every call. -/
def navBad : Nav := Nav.init (some hwRaise)

/-- A system state in normal operation. -/
def sysRunning : RobotSystem :=
  { is_running := true, autonomous_mode := true, emergency_stop_triggered := false }

/-- A non-critical system status (battery 7.0 V, CPU 40 °C). -/
def statusOk : SysStatus := { battery_voltage := 7, cpu_temperature := 40 }

/-- An in-memory map state before a load: a 1×1 grid of 0.5 at resolution 1. -/
def mapState0 : MapState :=
  { grid := Ndarray.arr2 [[1/2]], resolution_cm := 1, height_cells := 1, width_cells := 1 }

/-- An NPZ archive holding a `grid` entry but no `resolution` entry. -/
def npzNoResolution : List (String × Ndarray) := [("grid", Ndarray.arr2 [[3/4]])]

/-- A freshly constructed 1 cm × 1 cm grid at resolution 1 (one cell). -/
noncomputable def grid1 : OccupancyGrid := OccupancyGrid.create 1 1 1

/-- A freshly constructed 10 cm × 10 cm grid at resolution 1. -/
noncomputable def grid10 : OccupancyGrid := OccupancyGrid.create 10 10 1

/-! ## Theorems -/

/-- C7: for every world coordinate `(x, y)` and positive resolution, the
round trip `grid_to_world (world_to_grid (x, y))` lands within one
resolution unit of `(x, y)`: the squared Euclidean distance is at most
`resolution²` (in fact at most `resolution²/2`). -/
theorem grid_world_round_trip (res x y : ℚ) (hres : 0 < res) :
    ((grid_to_world res (world_to_grid res x y).1 (world_to_grid res x y).2).1 - x) ^ 2 +
      ((grid_to_world res (world_to_grid res x y).1 (world_to_grid res x y).2).2 - y) ^ 2 ≤
      res ^ 2 := by
  have hne : res ≠ 0 := ne_of_gt hres
  simp only [world_to_grid, grid_to_world]
  have h1 : ((⌊x / res⌋ : ℚ)) * res ≤ x := by
    have := Int.floor_le (x / res)
    calc ((⌊x / res⌋ : ℚ)) * res ≤ (x / res) * res := by
          exact mul_le_mul_of_nonneg_right this (le_of_lt hres)
      _ = x := div_mul_cancel₀ x hne
  have h2 : x < ((⌊x / res⌋ : ℚ) + 1) * res := by
    have := Int.lt_floor_add_one (x / res)
    calc x = (x / res) * res := (div_mul_cancel₀ x hne).symm
      _ < ((⌊x / res⌋ : ℚ) + 1) * res := by
          exact mul_lt_mul_of_pos_right this hres
  have h3 : ((⌊y / res⌋ : ℚ)) * res ≤ y := by
    have := Int.floor_le (y / res)
    calc ((⌊y / res⌋ : ℚ)) * res ≤ (y / res) * res := by
          exact mul_le_mul_of_nonneg_right this (le_of_lt hres)
      _ = y := div_mul_cancel₀ y hne
  have h4 : y < ((⌊y / res⌋ : ℚ) + 1) * res := by
    have := Int.lt_floor_add_one (y / res)
    calc y = (y / res) * res := (div_mul_cancel₀ y hne).symm
      _ < ((⌊y / res⌋ : ℚ) + 1) * res := by
          exact mul_lt_mul_of_pos_right this hres
  nlinarith [h1, h2, h3, h4, mul_pos hres hres, sq_nonneg res]

/-- C7 witness: the round-trip bound instantiated at resolution 1 and the
point `(1/3, 2/5)`. -/
theorem grid_world_round_trip_witness :
    ((grid_to_world 1 (world_to_grid 1 (1/3) (2/5)).1 (world_to_grid 1 (1/3) (2/5)).2).1
        - 1/3) ^ 2 +
      ((grid_to_world 1 (world_to_grid 1 (1/3) (2/5)).1 (world_to_grid 1 (1/3) (2/5)).2).2
        - 2/5) ^ 2 ≤ (1 : ℚ) ^ 2 :=
  grid_world_round_trip 1 (1/3) (2/5) (by norm_num)

/-- C4: evaluating `_bresenham_line` on the distinct endpoints `(5,0)` and
`(0,2)` (driving axis x, running in the negative direction).  The emitted
sequence neither starts at the start cell `(5,0)` nor interpolates the
non-driving axis: `np.interp` is invoked with the decreasing `xp = [5, 0]`,
for which numpy returns the `fp` endpoints, so every cell but the last gets
`y = 2` and the last gets `y = 0`. -/
theorem bresenham_negative_direction_eval :
    bresenhamRaw 5 0 0 2 = [(5, 2), (4, 2), (3, 2), (2, 2), (1, 2), (0, 0)] ∧
      ((5 : ℤ), (0 : ℤ)) ∉ bresenhamRaw 5 0 0 2 := by
  constructor
  · with_unfolding_all rfl
  · have h : bresenhamRaw 5 0 0 2 = [(5, 2), (4, 2), (3, 2), (2, 2), (1, 2), (0, 0)] := by
      with_unfolding_all rfl
    rw [h]
    simp

/-- C6: `get_frontiers` on a freshly constructed 500 cm × 500 cm grid (the
construction in `main.py`, all cells 0.5) does not return the empty frontier
list: it fails with the `NameError` raised at the unresolved `cv2` name. -/
theorem get_frontiers_raises_on_fresh_grid :
    (OccupancyGrid.create 500 500 1).get_frontiers =
      Except.error "NameError: name cv2 is not defined" := rfl

/-- C2 counterexample: loading an archive that has a `grid` entry but no
`resolution` entry fails (returns `False`), yet the prior in-memory grid
array has already been replaced — the failed load leaves the state
partially modified, contradicting the claim that on any load failure the
prior grid is left completely unmodified (and no dimension validation or
`CorruptMapData` error exists on this path). -/
theorem load_partial_modification :
    (load_grid_from_file mapState0 (some npzNoResolution)).2 = false ∧
      (load_grid_from_file mapState0 (some npzNoResolution)).1.grid ≠ mapState0.grid := by
  constructor
  · rfl
  · show Ndarray.arr2 [[3/4]] ≠ Ndarray.arr2 [[1/2]]
    intro h
    have : ((3 : ℚ)/4) = 1/2 := by
      have h1 := Ndarray.arr2.inj h
      simpa using h1
    norm_num at this

/-- C2 (amended): `load_grid_from_file` signals failure by returning
`False` (every exception is caught; no `CorruptMapData` error and no
dimension validation exist).  A failure before the `self.grid` assignment
(unreadable file, missing `grid` key) leaves the state unmodified, but a
failure after it (e.g. missing `resolution` key) leaves the grid array
replaced while resolution and cell counts keep their prior values — a
partial load. -/
theorem load_failure_behaviour (st : MapState) :
    load_grid_from_file st none = (st, false) ∧
      (∀ data, npzGet "grid" data = none → load_grid_from_file st (some data) = (st, false)) ∧
      (∀ data arr, npzGet "grid" data = some arr → npzGet "resolution" data = none →
        load_grid_from_file st (some data) = ({ st with grid := arr }, false)) := by
  refine ⟨rfl, ?_, ?_⟩
  · intro data h
    simp [load_grid_from_file, h]
  · intro data arr h1 h2
    simp [load_grid_from_file, h1, h2]

/-- C2 witness: the three failure modes of `load_grid_from_file` at
concrete inputs — unreadable file, archive without a `grid` entry, and
archive with a `grid` entry but no `resolution` entry. -/
theorem load_failure_behaviour_witness :
    load_grid_from_file mapState0 none = (mapState0, false) ∧
      load_grid_from_file mapState0 (some []) = (mapState0, false) ∧
      load_grid_from_file mapState0 (some npzNoResolution) =
        ({ mapState0 with grid := Ndarray.arr2 [[3/4]] }, false) :=
  ⟨(load_failure_behaviour mapState0).1,
    (load_failure_behaviour mapState0).2.1 [] rfl,
    (load_failure_behaviour mapState0).2.2 npzNoResolution (Ndarray.arr2 [[3/4]]) rfl rfl⟩

/-- C9: every `avoid_obstacle(distance, bearing)` call first checks the
distance against `min_obstacle_distance + robot_radius + safety_margin`
(which the controller constructor sets to `20 + 15 + 5 = 40`); when the
check passes the call reports success with no maneuver and an unchanged
pose, and when it fails the maneuver changes `pose.theta` and the call
reports success exactly when the maneuver completed. -/
theorem avoid_obstacle_checks_threshold (h : Option HwBehavior) (nav : Nav) (ok : Bool)
    (d b : ℚ) :
    (Nav.init h).min_obstacle_distance + (Nav.init h).robot_radius +
        (Nav.init h).safety_margin = 40 ∧
      (nav.min_obstacle_distance + nav.robot_radius + nav.safety_margin < d →
        nav.avoid_obstacle ok d b = (nav, true)) ∧
      (¬ nav.min_obstacle_distance + nav.robot_radius + nav.safety_margin < d →
        (nav.avoid_obstacle ok d b).1.current_pose.theta ≠ nav.current_pose.theta ∧
          (nav.avoid_obstacle ok d b).2 = ok) := by
  refine ⟨by norm_num [Nav.init], ?_, ?_⟩
  · intro hd
    simp [Nav.avoid_obstacle, hd]
  · intro hd
    constructor
    · by_cases hb : b < 0 <;>
        simp [Nav.avoid_obstacle, hd, hb, avoidance_turn_angle]
    · simp [Nav.avoid_obstacle, hd]

/-- C9 witness: with the default thresholds, `avoid_obstacle(100, 0)`
reports success without action (controller unchanged) and
`avoid_obstacle(10, π/4 ≈ 0.785)` changes `pose.theta`. -/
theorem avoid_obstacle_checks_threshold_witness :
    navNoHw.avoid_obstacle true 100 0 = (navNoHw, true) ∧
      (navNoHw.avoid_obstacle true 10 (785/1000)).1.current_pose.theta ≠
        navNoHw.current_pose.theta :=
  ⟨(avoid_obstacle_checks_threshold none navNoHw true 100 0).2.1 (by norm_num [navNoHw, Nav.init]),
    ((avoid_obstacle_checks_threshold none navNoHw true 10 (785/1000)).2.2
      (by norm_num [navNoHw, Nav.init])).1⟩

/-- C10: with `picar = None` (failed hardware initialization) every motion
command — `move_forward`, `move_backward`, `turn_left`, `turn_right`,
`stop` — returns `False` without attempting any hardware call; and when the
hardware is present but an underlying call raises, the command returns
`False` rather than letting the exception escape. -/
theorem motion_commands_fail_closed (nav : Nav) (speed : Option ℚ) (angle : ℚ) :
    (nav.picar = none →
        nav.move_forward speed = (false, []) ∧
        nav.move_backward speed = (false, []) ∧
        nav.turn_left angle = (false, []) ∧
        nav.turn_right angle = (false, []) ∧
        nav.stop = (false, [])) ∧
      (∀ hw, nav.picar = some hw →
        (hw "forward" [speed.getD nav.max_speed] = false →
          (nav.move_forward speed).1 = false) ∧
        (hw "backward" [speed.getD nav.max_speed] = false →
          (nav.move_backward speed).1 = false) ∧
        (hw "set_dir_servo_angle" [angle] = false → (nav.turn_left angle).1 = false) ∧
        (hw "set_dir_servo_angle" [angle] = false → (nav.turn_right angle).1 = false) ∧
        (hw "stop" [] = false → (nav.stop).1 = false)) := by
  constructor
  · intro hn
    simp [Nav.move_forward, Nav.move_backward, Nav.turn_left, Nav.turn_right, Nav.stop,
      Nav.safe_hardware_call, hn]
  · intro hw hs
    simp [Nav.move_forward, Nav.move_backward, Nav.turn_left, Nav.turn_right, Nav.stop,
      Nav.safe_hardware_call, hs]
    intro h1 h2
    simp [h1] at h2

/-- C10 witness: the no-hardware controller refuses all five motion
commands with no actuation attempted, and a controller whose hardware
raises on every call gets `False` back from `move_forward` instead of an
exception. -/
theorem motion_commands_fail_closed_witness :
    (navNoHw.move_forward none = (false, []) ∧
      navNoHw.move_backward none = (false, []) ∧
      navNoHw.turn_left 90 = (false, []) ∧
      navNoHw.turn_right 90 = (false, []) ∧
      navNoHw.stop = (false, [])) ∧
    (navBad.move_forward none).1 = false :=
  ⟨(motion_commands_fail_closed navNoHw none 90).1 rfl,
    (by
      have h := ((motion_commands_fail_closed navBad none 90).2 hwRaise rfl).1
      exact h rfl)⟩

/-- Every hardware call issued by `NavigationController.stop` is a halt
command (`stop` / `set_dir_servo_angle`), never a motion command. -/
theorem stop_trace_no_motion (nav : Nav) : ∀ c ∈ (Nav.stop nav).2, isMotionCmd c = false := by
  intro c hc
  cases hpi : nav.picar with
  | none => simp [Nav.stop, Nav.safe_hardware_call, hpi] at hc
  | some hw =>
    simp [Nav.stop, Nav.safe_hardware_call, hpi] at hc
    rcases hc with h | h <;> simp [h, isMotionCmd]

/-- Every hardware call issued by `_handle_emergency_stop` is a halt
command. -/
theorem handle_emergency_stop_trace_no_motion (sys : RobotSystem) (nav : Nav)
    (status : SysStatus) :
    ∀ c ∈ (handle_emergency_stop sys nav status).2, isMotionCmd c = false := by
  intro c hc
  unfold handle_emergency_stop at hc
  by_cases hcrit : status.battery_voltage ≤ BATTERY_CRITICAL_VOLTAGE ∨
      CPU_TEMP_CRITICAL ≤ status.cpu_temperature
  · rw [if_pos hcrit] at hc
    simp only [Nav.emergency_stop, List.mem_append] at hc
    rcases hc with h | h <;> exact stop_trace_no_motion nav c h
  · rw [if_neg hcrit] at hc
    exact stop_trace_no_motion nav c hc

/-- A single core step neither clears `emergency_stop_triggered` nor issues
a motion command. -/
theorem coreStep_emergency_invariant (sys : RobotSystem) (nav : Nav) (op : CoreOp)
    (h : sys.emergency_stop_triggered = true) :
    (coreStep sys nav op).1.emergency_stop_triggered = true ∧
      ∀ c ∈ (coreStep sys nav op).2, isMotionCmd c = false := by
  cases op with
  | handleEmergencyStop status =>
    refine ⟨?_, handle_emergency_stop_trace_no_motion sys nav status⟩
    show (handle_emergency_stop sys nav status).1.emergency_stop_triggered = true
    simp only [handle_emergency_stop]
    split <;> rfl
  | toggleAutonomousMode => exact ⟨h, by simp [coreStep]⟩
  | safetyPause => exact ⟨h, by simp [coreStep]⟩
  | autonomousUpdate =>
    have hred : coreStep sys nav CoreOp.autonomousUpdate = (sys, []) := by
      show (if (sys.autonomous_mode && !sys.emergency_stop_triggered) = true
          then (sys, ([] : List (String × List ℚ))) else (sys, [])) = (sys, [])
      split <;> rfl
    rw [hred]
    exact ⟨h, by simp⟩
  | updateSensors => exact ⟨h, by simp [coreStep]⟩

/-- Running any sequence of core operations from an emergency-stopped state
keeps the flag set and issues no motion command. -/
theorem runCore_emergency_invariant (nav : Nav) :
    ∀ (ops : List CoreOp) (sys : RobotSystem), sys.emergency_stop_triggered = true →
      (runCore sys nav ops).1.emergency_stop_triggered = true ∧
        ∀ c ∈ (runCore sys nav ops).2, isMotionCmd c = false := by
  intro ops
  induction ops with
  | nil => exact fun sys h => ⟨h, by simp [runCore]⟩
  | cons op rest ih =>
    intro sys h
    have hstep := coreStep_emergency_invariant sys nav op h
    have hrest := ih (coreStep sys nav op).1 hstep.1
    constructor
    · show (runCore (coreStep sys nav op).1 nav rest).1.emergency_stop_triggered = true
      exact hrest.1
    · intro c hc
      simp only [runCore, List.mem_append] at hc
      rcases hc with h1 | h1
      · exact hstep.2 c h1
      · exact hrest.2 c h1

/-- C8: `_handle_emergency_stop` immediately issues the actuation `stop`
and zero steering angle (when hardware is present), unconditionally sets
`emergency_stop_triggered` (and clears `autonomous_mode`), and is
idempotent on the system state; afterwards no sequence of core operations
ever clears the emergency flag or issues a motion command — only an
external reset could. -/
theorem emergency_stop_latches (sys : RobotSystem) (nav : Nav) (status : SysStatus) :
    (handle_emergency_stop sys nav status).1.emergency_stop_triggered = true ∧
      (handle_emergency_stop sys nav status).1.autonomous_mode = false ∧
      (∀ hw, nav.picar = some hw →
        (handle_emergency_stop sys nav status).2.take 2 =
          [("stop", []), ("set_dir_servo_angle", [0])]) ∧
      (handle_emergency_stop (handle_emergency_stop sys nav status).1 nav status).1 =
        (handle_emergency_stop sys nav status).1 ∧
      (∀ ops : List CoreOp,
        (runCore (handle_emergency_stop sys nav status).1 nav ops).1.emergency_stop_triggered
            = true ∧
          ∀ c ∈ (handle_emergency_stop sys nav status).2 ++
              (runCore (handle_emergency_stop sys nav status).1 nav ops).2,
            isMotionCmd c = false) := by
  have hflag : (handle_emergency_stop sys nav status).1.emergency_stop_triggered = true := by
    unfold handle_emergency_stop
    split <;> rfl
  have hauto : (handle_emergency_stop sys nav status).1.autonomous_mode = false := by
    unfold handle_emergency_stop
    split <;> rfl
  refine ⟨hflag, hauto, ?_, ?_, ?_⟩
  · intro hw hs
    unfold handle_emergency_stop
    split <;> simp [Nav.emergency_stop, Nav.stop, Nav.safe_hardware_call, hs]
  · unfold handle_emergency_stop
    split <;> rfl
  · intro ops
    have hrun := runCore_emergency_invariant nav ops
      (handle_emergency_stop sys nav status).1 hflag
    refine ⟨hrun.1, ?_⟩
    intro c hc
    rcases List.mem_append.mp hc with h1 | h1
    · exact handle_emergency_stop_trace_no_motion sys nav status c h1
    · exact hrun.2 c h1

/-- C8 witness: a running autonomous system with healthy hardware: the
first two hardware calls of the handler are the halt commands, and after
the handler a toggle of autonomous mode still leaves the emergency flag
set. -/
theorem emergency_stop_latches_witness :
    (handle_emergency_stop sysRunning navOk statusOk).2.take 2 =
        [("stop", []), ("set_dir_servo_angle", [0])] ∧
      (runCore (handle_emergency_stop sysRunning navOk statusOk).1 navOk
          [CoreOp.toggleAutonomousMode]).1.emergency_stop_triggered = true :=
  ⟨(emergency_stop_latches sysRunning navOk statusOk).2.2.1 hwAll rfl,
    ((emergency_stop_latches sysRunning navOk statusOk).2.2.2.2
      [CoreOp.toggleAutonomousMode]).1⟩

/-- The step direction is never zero. -/
theorem stepDir_ne_zero (p q : ℤ) : stepDir p q ≠ 0 := by
  unfold stepDir
  split <;> norm_num

/-- The raw Bresenham point list has no duplicate cells: its driving-axis
coordinate advances by the step direction at every entry. -/
theorem bresenhamRaw_nodup (x0 y0 x1 y1 : ℤ) : (bresenhamRaw x0 y0 x1 y1).Nodup := by
  simp only [bresenhamRaw]
  by_cases h0 : (x1 - x0).natAbs = 0 ∧ (y1 - y0).natAbs = 0
  · rw [if_pos h0]
    exact List.nodup_singleton _
  · rw [if_neg h0]
    by_cases hxy : (y1 - y0).natAbs < (x1 - x0).natAbs
    · rw [if_pos hxy]
      have hinj : Function.Injective (fun i : ℕ =>
          (x0 + stepDir x0 x1 * (i : ℤ),
            npInterpRound x0 x1 y0 y1 (x0 + stepDir x0 x1 * (i : ℤ)))) := by
        intro i j hij
        have h1 : x0 + stepDir x0 x1 * (i : ℤ) = x0 + stepDir x0 x1 * (j : ℤ) :=
          congrArg Prod.fst hij
        have h2 : stepDir x0 x1 * (i : ℤ) = stepDir x0 x1 * (j : ℤ) := by linarith
        have h3 : (i : ℤ) = (j : ℤ) := mul_left_cancel₀ (stepDir_ne_zero x0 x1) h2
        exact_mod_cast h3
      exact List.Nodup.map hinj (List.nodup_range _)
    · rw [if_neg hxy]
      have hinj : Function.Injective (fun i : ℕ =>
          (npInterpRound y0 y1 x0 x1 (y0 + stepDir y0 y1 * (i : ℤ)),
            y0 + stepDir y0 y1 * (i : ℤ))) := by
        intro i j hij
        have h1 : y0 + stepDir y0 y1 * (i : ℤ) = y0 + stepDir y0 y1 * (j : ℤ) :=
          congrArg Prod.snd hij
        have h2 : stepDir y0 y1 * (i : ℤ) = stepDir y0 y1 * (j : ℤ) := by linarith
        have h3 : (i : ℤ) = (j : ℤ) := mul_left_cancel₀ (stepDir_ne_zero y0 y1) h2
        exact_mod_cast h3
      exact List.Nodup.map hinj (List.nodup_range _)

/-- The in-bounds ray cell sequence has no duplicate cells. -/
theorem ray_cells_nodup (g : OccupancyGrid) (s e : ℤ × ℤ) : (g.ray_cells s e).Nodup :=
  List.Nodup.filter _ (bresenhamRaw_nodup s.1 s.2 e.1 e.2)

/-- Pointwise description of a vectorized batch update. -/
theorem update_cells_grid (g : OccupancyGrid) (cs : List (ℤ × ℤ)) (occ : Bool) (c : ℤ × ℤ) :
    (g.update_cells cs occ).grid c =
      if c ∈ cs then cell_update occ (g.grid c) else g.grid c := rfl

/-- `update_occupancy` unfolded on a ray with a known last cell. -/
theorem update_occupancy_eq_of_getLast (g : OccupancyGrid) (s e d : ℤ × ℤ)
    (hd : (g.ray_cells s e).getLast? = some d) :
    g.update_occupancy s e =
      (g.update_cells (g.ray_cells s e).dropLast false).update_cells [d] true := by
  unfold OccupancyGrid.update_occupancy
  rw [hd]

/-- C3: in every `update_occupancy` call, every cell of the in-bounds ray
sequence except the last receives exactly the observed-free update, the
last cell receives exactly the observed-occupied update (applied to its
pre-call value), and when the start cell equals the end cell the sequence
is the single (in-bounds) cell, which receives only the observed-occupied
update. -/
theorem update_occupancy_free_then_occupied (g : OccupancyGrid) (s e : ℤ × ℤ) :
    (∀ c ∈ (g.ray_cells s e).dropLast,
        (g.update_occupancy s e).grid c = cell_update false (g.grid c)) ∧
      (∀ d, (g.ray_cells s e).getLast? = some d →
        (g.update_occupancy s e).grid d = cell_update true (g.grid d)) ∧
      (s = e → cellInBounds g.width_cells g.height_cells s →
        g.ray_cells s e = [s] ∧
        (g.update_occupancy s e).grid s = cell_update true (g.grid s)) := by
  have hnd := ray_cells_nodup g s e
  have hocc : ∀ d, (g.ray_cells s e).getLast? = some d →
      (g.update_occupancy s e).grid d = cell_update true (g.grid d) := by
    intro d hd
    have hsplit : (g.ray_cells s e).dropLast ++ [d] = g.ray_cells s e :=
      List.dropLast_append_getLast? d hd
    have hnd2 : ((g.ray_cells s e).dropLast ++ [d]).Nodup := by rw [hsplit]; exact hnd
    have hdnot : d ∉ (g.ray_cells s e).dropLast := by
      intro hmem
      exact (List.nodup_append.mp hnd2).2.2 hmem (List.mem_singleton.mpr rfl)
    rw [update_occupancy_eq_of_getLast g s e d hd, update_cells_grid, update_cells_grid]
    simp [hdnot]
  have hfree : ∀ c ∈ (g.ray_cells s e).dropLast,
      (g.update_occupancy s e).grid c = cell_update false (g.grid c) := by
    intro c hc
    have hne : g.ray_cells s e ≠ [] := by
      intro hnil
      rw [hnil] at hc
      simp at hc
    obtain ⟨d, hd⟩ : ∃ d, (g.ray_cells s e).getLast? = some d := by
      cases hL : (g.ray_cells s e).getLast? with
      | none => exact absurd (List.getLast?_eq_none_iff.mp hL) hne
      | some d => exact ⟨d, rfl⟩
    have hsplit : (g.ray_cells s e).dropLast ++ [d] = g.ray_cells s e :=
      List.dropLast_append_getLast? d hd
    have hnd2 : ((g.ray_cells s e).dropLast ++ [d]).Nodup := by rw [hsplit]; exact hnd
    have hcd : c ≠ d := by
      intro hEq
      exact (List.nodup_append.mp hnd2).2.2 (hEq ▸ hc) (List.mem_singleton.mpr rfl)
    rw [update_occupancy_eq_of_getLast g s e d hd, update_cells_grid, update_cells_grid]
    simp [hcd, hc]
  refine ⟨hfree, hocc, ?_⟩
  intro hse hb
  subst hse
  have hL : g.ray_cells s s = [s] := by
    unfold OccupancyGrid.ray_cells bresenhamLine
    have hraw : bresenhamRaw s.1 s.2 s.1 s.2 = [(s.1, s.2)] := by
      simp [bresenhamRaw]
    rw [hraw]
    simp [hb]
  refine ⟨hL, hocc s ?_⟩
  rw [hL]
  rfl

/-- C5: every cell of the ray sequence used by `update_occupancy` lies
within the grid bounds (out-of-bounds cells, including negative
coordinates that numpy would wrap, are dropped by the mask), and the update
leaves every out-of-bounds cell untouched. -/
theorem ray_clipped_to_bounds (g : OccupancyGrid) (s e : ℤ × ℤ) :
    (∀ c ∈ g.ray_cells s e, cellInBounds g.width_cells g.height_cells c) ∧
      (∀ c, ¬ cellInBounds g.width_cells g.height_cells c →
        (g.update_occupancy s e).grid c = g.grid c) := by
  have hmem : ∀ c ∈ g.ray_cells s e, cellInBounds g.width_cells g.height_cells c := by
    intro c hc
    unfold OccupancyGrid.ray_cells bresenhamLine at hc
    have h2 := (List.mem_filter.mp hc).2
    simp only [decide_eq_true_eq] at h2
    exact h2
  refine ⟨hmem, ?_⟩
  intro c hc
  have hnot : c ∉ g.ray_cells s e := fun hm => hc (hmem c hm)
  cases hL : (g.ray_cells s e).getLast? with
  | none =>
    have hnil : g.ray_cells s e = [] := List.getLast?_eq_none_iff.mp hL
    have : g.update_occupancy s e = g.update_cells (g.ray_cells s e).dropLast false := by
      unfold OccupancyGrid.update_occupancy
      rw [hL]
    rw [this, update_cells_grid, hnil]
    simp
  | some d =>
    have hsplit : (g.ray_cells s e).dropLast ++ [d] = g.ray_cells s e :=
      List.dropLast_append_getLast? d hL
    have hdmem : d ∈ g.ray_cells s e := by
      rw [← hsplit]
      simp
    have hcd : c ≠ d := fun hEq => hnot (hEq ▸ hdmem)
    have hcdrop : c ∉ (g.ray_cells s e).dropLast := by
      intro hdp
      exact hnot (by rw [← hsplit]; exact List.mem_append_left _ hdp)
    rw [update_occupancy_eq_of_getLast g s e d hL, update_cells_grid, update_cells_grid]
    simp [hcd, hcdrop]

/-- C3 witness: on the fresh 10×10 grid, the ray from cell `(0,0)` to
`(3,0)` marks the interior cell `(1,0)` free and the endpoint `(3,0)`
occupied, and the degenerate ray from `(2,2)` to itself is the single
cell. -/
theorem update_occupancy_free_then_occupied_witness :
    (grid10.update_occupancy (0, 0) (3, 0)).grid (1, 0) =
        cell_update false (grid10.grid (1, 0)) ∧
      (grid10.update_occupancy (0, 0) (3, 0)).grid (3, 0) =
        cell_update true (grid10.grid (3, 0)) ∧
      grid10.ray_cells (2, 2) (2, 2) = [(2, 2)] := by
  have e1 : grid10.ray_cells (0, 0) (3, 0) = [(0, 0), (1, 0), (2, 0), (3, 0)] := by
    with_unfolding_all rfl
  have hw : grid10.width_cells = 10 := by with_unfolding_all rfl
  have hh : grid10.height_cells = 10 := by with_unfolding_all rfl
  refine ⟨?_, ?_, ?_⟩
  · exact (update_occupancy_free_then_occupied grid10 (0, 0) (3, 0)).1 (1, 0)
      (by rw [e1]; simp)
  · exact (update_occupancy_free_then_occupied grid10 (0, 0) (3, 0)).2.1 (3, 0)
      (by rw [e1]; rfl)
  · refine ((update_occupancy_free_then_occupied grid10 (2, 2) (2, 2)).2.2 rfl ?_).1
    unfold cellInBounds
    rw [hw, hh]
    norm_num

/-- C5 witness: the ray from `(0,0)` to `(3,0)` on the 10×10 grid stays in
bounds cell by cell, and the out-of-bounds cell `(12,12)` is untouched by
the update. -/
theorem ray_clipped_to_bounds_witness :
    cellInBounds grid10.width_cells grid10.height_cells ((1 : ℤ), (0 : ℤ)) ∧
      ¬ cellInBounds grid10.width_cells grid10.height_cells ((12 : ℤ), (12 : ℤ)) ∧
      (grid10.update_occupancy (0, 0) (3, 0)).grid (12, 12) = grid10.grid (12, 12) := by
  have e1 : grid10.ray_cells (0, 0) (3, 0) = [(0, 0), (1, 0), (2, 0), (3, 0)] := by
    with_unfolding_all rfl
  have hw : grid10.width_cells = 10 := by with_unfolding_all rfl
  have hh : grid10.height_cells = 10 := by with_unfolding_all rfl
  have hout : ¬ cellInBounds grid10.width_cells grid10.height_cells ((12 : ℤ), (12 : ℤ)) := by
    unfold cellInBounds
    rw [hw, hh]
    norm_num
  refine ⟨?_, hout, ?_⟩
  · exact (ray_clipped_to_bounds grid10 (0, 0) (3, 0)).1 (1, 0) (by rw [e1]; simp)
  · exact (ray_clipped_to_bounds grid10 (0, 0) (3, 0)).2 (12, 12) hout

/-- The logistic map applied to the log-odds of `p ∈ (0,1)` gives back
`p`. -/
theorem sigmoid_logit (p : ℝ) (hp0 : 0 < p) (hp1 : p < 1) :
    1 / (1 + Real.exp (-Real.log (p / (1 - p)))) = p := by
  have h1 : 0 < 1 - p := by linarith
  have hr : 0 < p / (1 - p) := div_pos hp0 h1
  rw [Real.exp_neg, Real.exp_log hr, inv_div]
  have h2 : 1 + (1 - p) / p = 1 / p := by field_simp
  rw [h2, one_div_one_div]

/-- The logistic map is strictly monotone. -/
theorem sigmoid_strict_mono {x y : ℝ} (h : x < y) :
    1 / (1 + Real.exp (-x)) < 1 / (1 + Real.exp (-y)) := by
  have he : Real.exp (-y) < Real.exp (-x) := Real.exp_lt_exp.mpr (by linarith)
  have hy : 0 < 1 + Real.exp (-y) := by positivity
  exact one_div_lt_one_div_of_lt hy (by linarith)

/-- C1 (amended): the per-cell update has no clamp, but in exact arithmetic
it keeps every probability strictly inside `(0, 1)` — never exactly 0 or 1
— and each occupied update strictly increases the probability (toward 1)
while each free update strictly decreases it (toward 0).  The `(ε, 1−ε)`
confinement of the original claim does not hold (see the counterexample
theorem). -/
theorem cell_update_unit_interval_and_monotone (p : ℝ) (hp0 : 0 < p) (hp1 : p < 1) :
    (∀ occ, 0 < cell_update occ p ∧ cell_update occ p < 1) ∧
      p < cell_update true p ∧ cell_update false p < p := by
  have hlogit := sigmoid_logit p hp0 hp1
  refine ⟨?_, ?_, ?_⟩
  · intro occ
    unfold cell_update
    constructor
    · positivity
    · rw [div_lt_one (by positivity)]
      have := Real.exp_pos (-(Real.log (p / (1 - p)) + log_odds_update occ))
      linarith
  · have h1 : Real.log (p / (1 - p)) < Real.log (p / (1 - p)) + log_odds_update true := by
      unfold log_odds_update
      norm_num
    have h2 := sigmoid_strict_mono h1
    rw [hlogit] at h2
    exact h2
  · have h1 : Real.log (p / (1 - p)) + log_odds_update false < Real.log (p / (1 - p)) := by
      unfold log_odds_update
      norm_num
    have h2 := sigmoid_strict_mono h1
    rw [hlogit] at h2
    exact h2

/-- C1 witness: the amended update properties at the unknown prior 0.5. -/
theorem cell_update_unit_interval_and_monotone_witness :
    (0 < (1/2 : ℝ) ∧ (1/2 : ℝ) < 1) ∧
      ((∀ occ, 0 < cell_update occ (1/2) ∧ cell_update occ (1/2) < 1) ∧
        (1/2 : ℝ) < cell_update true (1/2) ∧ cell_update false (1/2) < 1/2) :=
  ⟨⟨by norm_num, by norm_num⟩,
    cell_update_unit_interval_and_monotone (1/2) (by norm_num) (by norm_num)⟩

/-- One occupied update advances a logistic value by the 0.4 log-odds
increment. -/
theorem cell_update_true_sigmoid (x : ℝ) :
    cell_update true (1 / (1 + Real.exp (-x))) = 1 / (1 + Real.exp (-(x + 0.4))) := by
  unfold cell_update log_odds_update
  have hden : 0 < 1 + Real.exp (-x) := by positivity
  have h1 : (1 : ℝ) - 1 / (1 + Real.exp (-x)) = Real.exp (-x) / (1 + Real.exp (-x)) := by
    field_simp
  have h2 : (1 / (1 + Real.exp (-x))) / ((1 : ℝ) - 1 / (1 + Real.exp (-x))) = Real.exp x := by
    rw [h1, div_div_div_cancel_right₀, one_div, Real.exp_neg, inv_inv]
    exact ne_of_gt hden
  rw [h2, Real.log_exp]
  norm_num

/-- `update_occupancy` leaves the grid dimensions unchanged. -/
theorem update_occupancy_dims (g : OccupancyGrid) (s e : ℤ × ℤ) :
    (g.update_occupancy s e).width_cells = g.width_cells ∧
      (g.update_occupancy s e).height_cells = g.height_cells := by
  unfold OccupancyGrid.update_occupancy
  cases hL : (g.ray_cells s e).getLast? with
  | none => exact ⟨rfl, rfl⟩
  | some d => exact ⟨rfl, rfl⟩

/-- A degenerate ray whose sequence is one single cell applies exactly one
occupied update to it. -/
theorem update_occupancy_single_cell (g : OccupancyGrid) (c : ℤ × ℤ)
    (h : g.ray_cells c c = [c]) :
    (g.update_occupancy c c).grid c = cell_update true (g.grid c) := by
  have hd : (g.ray_cells c c).getLast? = some c := by rw [h]; rfl
  rw [update_occupancy_eq_of_getLast g c c c hd, update_cells_grid, update_cells_grid]
  simp [h]

/-- C1 counterexample: 24 identical `update_occupancy` calls whose start
and end cell coincide at `(0,0)` (e.g. distance 0 readings at the origin
pose) drive that cell's probability above `1 − 1e-4` on the fresh one-cell
grid — the value is not confined to `(ε, 1−ε)` for `ε = 1e-4`, because the
code never clamps. -/
theorem repeated_updates_escape_epsilon_band :
    1 - 1/10000 <
      ((fun g : OccupancyGrid => g.update_occupancy (0, 0) (0, 0))^[24] grid1).grid (0, 0) := by
  have hw1 : grid1.width_cells = 1 := by with_unfolding_all rfl
  have hh1 : grid1.height_cells = 1 := by with_unfolding_all rfl
  have hstep : ∀ g : OccupancyGrid, g.width_cells = 1 → g.height_cells = 1 →
      (g.update_occupancy (0, 0) (0, 0)).grid (0, 0) = cell_update true (g.grid (0, 0)) := by
    intro g hwg hhg
    refine update_occupancy_single_cell g (0, 0) ?_
    unfold OccupancyGrid.ray_cells
    rw [hwg, hhg]
    with_unfolding_all rfl
  have hiter : ∀ n : ℕ,
      ((fun g : OccupancyGrid => g.update_occupancy (0, 0) (0, 0))^[n] grid1).width_cells = 1 ∧
      ((fun g : OccupancyGrid => g.update_occupancy (0, 0) (0, 0))^[n] grid1).height_cells = 1 ∧
      ((fun g : OccupancyGrid => g.update_occupancy (0, 0) (0, 0))^[n] grid1).grid (0, 0) =
        1 / (1 + Real.exp (-(0.4 * n))) := by
    intro n
    induction n with
    | zero =>
      refine ⟨hw1, hh1, ?_⟩
      have hv : grid1.grid (0, 0) = 1/2 := rfl
      simp only [Function.iterate_zero, id_eq, hv]
      norm_num [Real.exp_zero]
    | succ n ih =>
      obtain ⟨ihw, ihh, ihv⟩ := ih
      rw [Function.iterate_succ_apply']
      refine ⟨?_, ?_, ?_⟩
      · rw [(update_occupancy_dims _ _ _).1]
        exact ihw
      · rw [(update_occupancy_dims _ _ _).2]
        exact ihh
      · rw [hstep _ ihw ihh, ihv, cell_update_true_sigmoid]
        push_cast
        have harg : (0.4 : ℝ) * ((n : ℝ) + 1) = 0.4 * (n : ℝ) + 0.4 := by ring
        rw [harg]
  have hv := (hiter 24).2.2
  rw [hv]
  have h96 : (0.4 : ℝ) * ((24 : ℕ) : ℝ) = 9.6 := by norm_num
  rw [h96]
  have hE : (9999 : ℝ) < Real.exp 9.6 := by
    have h9 : Real.exp (9.6 : ℝ) = Real.exp 1 ^ 9 * Real.exp 0.6 := by
      rw [← Real.exp_nat_mul, ← Real.exp_add]
      norm_num
    have e1 : (2.7182818283 : ℝ) < Real.exp 1 := Real.exp_one_gt_d9
    have e06 : (1.6 : ℝ) ≤ Real.exp 0.6 := by
      have h := Real.add_one_le_exp (0.6 : ℝ)
      linarith
    have epow : (2.7182818283 : ℝ) ^ 9 < Real.exp 1 ^ 9 := by
      gcongr
    calc (9999 : ℝ) < 2.7182818283 ^ 9 * 1.6 := by norm_num
      _ ≤ Real.exp 1 ^ 9 * Real.exp 0.6 := by
          nlinarith [epow, e06, Real.exp_pos (0.6 : ℝ),
            pow_pos (show (0:ℝ) < 2.7182818283 by norm_num) 9]
      _ = Real.exp 9.6 := h9.symm
  have hEpos : 0 < Real.exp (9.6 : ℝ) := Real.exp_pos _
  have hexpneg : Real.exp (-(9.6 : ℝ)) = (Real.exp 9.6)⁻¹ := Real.exp_neg _
  have hd : 0 < 1 + Real.exp (-(9.6 : ℝ)) := by positivity
  rw [lt_div_iff₀ hd, hexpneg]
  have hinv : (Real.exp (9.6 : ℝ))⁻¹ * Real.exp 9.6 = 1 := inv_mul_cancel₀ (ne_of_gt hEpos)
  have hinvpos : 0 < (Real.exp (9.6 : ℝ))⁻¹ := by positivity
  nlinarith [hE, hinv, hinvpos, hEpos]

end AutoExplorer
